import Mathlib

/-!
Verification development for the honeypot API core.

Shallow embedding of: the session store and merge rules of
`src/services/sessionService.js`, the turn orchestration and API-key
middleware of `src/routes/honeypot.js`, the persona reply post-processing
of the persona service, the classifier result coercion of
`src/services/detectionService.js`, and the normalizers and candidate
filter of `src/services/extractionService.js`.
-/

namespace Honeypot

/-- JS whitespace for `trim()` and `\s`, restricted to the common characters. -/
def jsWhitespaceChar (c : Char) : Bool :=
  c = ' ' || c = '\t' || c = '\n' || c = '\r'

/-- Drop leading whitespace. -/
def trimLead (l : List Char) : List Char := l.dropWhile jsWhitespaceChar

/-- JS `String.prototype.trim`: drop leading and trailing whitespace. -/
def jsTrim (l : List Char) : List Char := (trimLead (trimLead l).reverse).reverse

/-- One step of the array-merge loop of `updateSession`
(`src/services/sessionService.js` lines 55-63):
`if (val && !session[field].includes(val)) session[field].push(val)`. -/
def mergeStep (acc : List String) (v : String) : List String :=
  if v ≠ "" ∧ v ∉ acc then acc ++ [v] else acc

/-- The array-merge loop of `updateSession` over one field:
fold every candidate value into the session's list. -/
def mergeField (cur : List String) (vals : List String) : List String :=
  vals.foldl mergeStep cur

/-- `if (updates[field] && Array.isArray(updates[field]))`: a missing field
merges nothing. -/
def mergeOpt (cur : List String) (v : Option (List String)) : List String :=
  mergeField cur (v.getD [])

/-- Per-conversation session state (`src/services/sessionService.js`
lines 11-34). -/
structure Session where
  sessionId : String
  createdAt : Nat
  lastUpdated : Nat
  totalMessages : Nat
  scamConfirmed : Bool
  scamType : Option String
  callbackSent : Bool
  upiIds : List String
  phoneNumbers : List String
  phishingLinks : List String
  bankAccounts : List String
  emailAddresses : List String
  ifscCodes : List String
  orgNames : List String
  suspiciousKeywords : List String
  tacticsObserved : List String
  conversationSummary : String

/-- The session object `getOrCreateSession` creates for an unseen id. -/
def freshSession (sessionId : String) (now : Nat) : Session :=
  { sessionId := sessionId
    createdAt := now
    lastUpdated := now
    totalMessages := 0
    scamConfirmed := false
    scamType := none
    callbackSent := false
    upiIds := []
    phoneNumbers := []
    phishingLinks := []
    bankAccounts := []
    emailAddresses := []
    ifscCodes := []
    orgNames := []
    suspiciousKeywords := []
    tacticsObserved := []
    conversationSummary := "" }

/-- The partial-update argument of `updateSession`: a JS object where each
key may be absent (`none`). -/
structure Updates where
  upiIds : Option (List String)
  phoneNumbers : Option (List String)
  phishingLinks : Option (List String)
  bankAccounts : Option (List String)
  emailAddresses : Option (List String)
  ifscCodes : Option (List String)
  orgNames : Option (List String)
  suspiciousKeywords : Option (List String)
  tacticsObserved : Option (List String)
  scamConfirmed : Option Bool
  scamType : Option String
  callbackSent : Option Bool
  conversationSummary : Option String

/-- An update object with no keys. -/
def emptyUpdates : Updates :=
  ⟨none, none, none, none, none, none, none, none, none, none, none, none, none⟩

/-- The update object `{ callbackSent: true }` passed after a dispatch
(`src/routes/honeypot.js` line 94). -/
def callbackFlagUpdate : Updates :=
  { emptyUpdates with callbackSent := some true }

/-- `updateSession` (`src/services/sessionService.js` lines 39-79): merge
arrays without duplicates, apply scalar updates (`scamConfirmed` and
`callbackSent` when the key is present, `scamType` and
`conversationSummary` when truthy), increment `totalMessages`, refresh
`lastUpdated`. -/
def updateSession (now : Nat) (s : Session) (u : Updates) : Session :=
  { s with
    upiIds := mergeOpt s.upiIds u.upiIds
    phoneNumbers := mergeOpt s.phoneNumbers u.phoneNumbers
    phishingLinks := mergeOpt s.phishingLinks u.phishingLinks
    bankAccounts := mergeOpt s.bankAccounts u.bankAccounts
    emailAddresses := mergeOpt s.emailAddresses u.emailAddresses
    ifscCodes := mergeOpt s.ifscCodes u.ifscCodes
    orgNames := mergeOpt s.orgNames u.orgNames
    suspiciousKeywords := mergeOpt s.suspiciousKeywords u.suspiciousKeywords
    tacticsObserved := mergeOpt s.tacticsObserved u.tacticsObserved
    scamConfirmed := u.scamConfirmed.getD s.scamConfirmed
    scamType :=
      match u.scamType with
      | some t => if t = "" then s.scamType else some t
      | none => s.scamType
    callbackSent := u.callbackSent.getD s.callbackSent
    conversationSummary :=
      match u.conversationSummary with
      | some t => if t = "" then s.conversationSummary else t
      | none => s.conversationSummary
    totalMessages := s.totalMessages + 1
    lastUpdated := now }

/-- `shouldTriggerCallback` (`src/services/sessionService.js` lines 93-102). -/
def shouldTriggerCallback (s : Session) : Bool :=
  if s.callbackSent then false
  else if !s.scamConfirmed then false
  else decide (8 ≤ s.totalMessages)

/-- Classification result after coercion (`detectScam` return shape). -/
structure Detection where
  isScam : Bool
  scamType : String
  confidence : Rat
  signals : List String

/-- Extraction result: the eight intelligence arrays returned by
`extractIntelligence`. -/
structure Extracted where
  phoneNumbers : List String
  upiIds : List String
  bankAccounts : List String
  ifscCodes : List String
  phishingLinks : List String
  emailAddresses : List String
  orgNames : List String
  suspiciousKeywords : List String

/-- The update object built by the route's `updateSession` call
(`src/routes/honeypot.js` lines 77-85): the detection-derived keys are
spread first and `...extracted` second, so `extracted.suspiciousKeywords`
overrides `detection.signals`. -/
def routeUpdates (d : Detection) (e : Extracted) : Updates :=
  { upiIds := some e.upiIds
    phoneNumbers := some e.phoneNumbers
    phishingLinks := some e.phishingLinks
    bankAccounts := some e.bankAccounts
    emailAddresses := some e.emailAddresses
    ifscCodes := some e.ifscCodes
    orgNames := some e.orgNames
    suspiciousKeywords := some e.suspiciousKeywords
    tacticsObserved := if d.isScam then some [d.scamType] else none
    scamConfirmed := if d.isScam then some true else none
    scamType := if d.isScam then some d.scamType else none
    callbackSent := none
    conversationSummary := none }

/-- One turn's background block run to completion
(`src/routes/honeypot.js` lines 72-100): merge detection and extraction,
then, if the callback should fire, dispatch and set the flag through a
second `updateSession` call. The boolean records whether
`sendFinalCallback` was invoked. -/
def backgroundWork (now : Nat) (s : Session) (d : Detection) (e : Extracted) :
    Session × Bool :=
  let s1 := updateSession now s (routeUpdates d e)
  if shouldTriggerCallback s1 && !s1.callbackSent then
    (updateSession now s1 callbackFlagUpdate, true)
  else (s1, false)

/-- Sequential run of the background blocks of a list of turns, counting
`sendFinalCallback` invocations. -/
def runTurnsSeq : List (Nat × Detection × Extracted) → Session → Session × Nat
  | [], s => (s, 0)
  | (now, d, e) :: ts, s =>
      let r := backgroundWork now s d e
      let rest := runTurnsSeq ts r.1
      (rest.1, (if r.2 then 1 else 0) + rest.2)

/-- Global state while background blocks of several turns are in flight. -/
structure BgState where
  session : Session
  firedTids : List Nat
  dispatchCount : Nat

/-- Atomic steps of a turn's background block, as the event loop schedules
them. `block` is the synchronous stretch from the `updateSession` call
through the callback check and the start of `await sendFinalCallback`
(`src/routes/honeypot.js` lines 77-93); `setFlag` is the
`updateSession(sessionId, { callbackSent: true })` that resumes only
after the awaited dispatch settles (line 94). -/
inductive BgStep where
  | block (tid : Nat) (now : Nat) (d : Detection) (e : Extracted)
  | setFlag (tid : Nat) (now : Nat)

/-- Apply one scheduled step. -/
def bgApply (st : BgState) : BgStep → BgState
  | .block tid now d e =>
      let s1 := updateSession now st.session (routeUpdates d e)
      if shouldTriggerCallback s1 && !s1.callbackSent then
        { session := s1
          firedTids := st.firedTids ++ [tid]
          dispatchCount := st.dispatchCount + 1 }
      else { st with session := s1 }
  | .setFlag tid now =>
      if tid ∈ st.firedTids then
        { st with session := updateSession now st.session callbackFlagUpdate }
      else st

/-- Run a schedule (an interleaving of background steps). -/
def runBg (steps : List BgStep) (st : BgState) : BgState :=
  steps.foldl bgApply st

/-- `currentTurn` of the route's Step 5 (`src/routes/honeypot.js`
lines 198-200): derived from the caller-supplied history when present,
else from the post-update message count. -/
def currentTurn (historyLen totalMessages : Nat) : Nat :=
  if 0 < historyLen then historyLen / 2 + 1 else totalMessages

/-- `shouldFire` of the route's Step 5 (`src/routes/honeypot.js`
lines 202-207): threshold check, near-end floor (8), absolute ceiling
(10). -/
def shouldFire (s : Session) (historyLen : Nat) : Bool :=
  shouldTriggerCallback s
  || (decide (8 ≤ currentTurn historyLen s.totalMessages)
      && s.scamConfirmed && !s.callbackSent)
  || (decide (10 ≤ currentTurn historyLen s.totalMessages)
      && !s.callbackSent)

/-- One turn of the Step-5 pipeline: merge the turn's results, evaluate
`shouldFire`, and on fire set the flag (its async `.then` assumed settled
before the next turn). The boolean records whether a dispatch fired. -/
def processTurnStep5 (now : Nat) (s : Session) (d : Detection) (e : Extracted)
    (historyLen : Nat) : Session × Bool :=
  let s1 := updateSession now s (routeUpdates d e)
  if shouldFire s1 historyLen then
    (updateSession now s1 callbackFlagUpdate, true)
  else (s1, false)

/-- Run a conversation through the Step-5 pipeline. The caller supplies
the full history, so turn `k0 + 1` sees `2 * k0` history entries (one
scammer and one reply entry per prior turn). The boolean list records,
turn by turn, whether a dispatch fired. -/
def runConversation : List (Detection × Extracted) → Nat → Session → Session × List Bool
  | [], _, s => (s, [])
  | (d, e) :: ts, k0, s =>
      let r := processTurnStep5 0 s d e (2 * k0)
      let rest := runConversation ts (k0 + 1) r.1
      (rest.1, r.2 :: rest.2)

/-- A double or single quote character. -/
def isQuoteChar (c : Char) : Bool := c = '"' || c.toNat = 39

/-- Drop one leading quote character (`replace(/^["']|["']$/g, "")`, the
anchored leading alternative). -/
def dropLeadQuote (l : List Char) : List Char :=
  match l with
  | c :: rest => if isQuoteChar c then rest else l
  | [] => []

/-- Drop one trailing quote character. -/
def dropTrailQuote (l : List Char) : List Char :=
  (dropLeadQuote l.reverse).reverse

/-- Strip one wrapping quote from each side. -/
def stripWrapQuotes (l : List Char) : List Char :=
  dropTrailQuote (dropLeadQuote l)

/-- A character of the class `[.,;:\-\s]`. -/
def isLeadPunct (c : Char) : Bool :=
  c = '.' || c = ',' || c = ';' || c = ':' || c = '-' || jsWhitespaceChar c

/-- `reply.charAt(0).toUpperCase() + reply.slice(1)`. -/
def capitalizeFirst (l : List Char) : List Char :=
  match l with
  | c :: rest => c.toUpper :: rest
  | [] => []

/-- The cleanup passes of `generatePersonaReply` before the length checks:
trim, strip wrapping quotes, strip leading punctuation, capitalize. -/
def cleanRawReply (raw : List Char) : List Char :=
  let r1 := jsTrim raw
  let r2 := jsTrim (stripWrapQuotes r1)
  let r3 := jsTrim (r2.dropWhile isLeadPunct)
  capitalizeFirst r3

/-- `reply.substring(0, 300).split(".").slice(0, -1).join(".") + "."`:
keep the first 300 characters up to and including their last `'.'`, or
just `"."` when they contain none. -/
def truncateAtSentence (l : List Char) : List Char :=
  let t := l.take 300
  let p := (t.reverse.dropWhile (fun c => c != '.')).reverse
  if p.isEmpty then ['.'] else p

/-- The hook suffixes appended when a reply does not already end in a
question or ellipsis. -/
def hooks : List (List Char) :=
  [(" Can you hold on one minute?").toList,
   (" Which number can I call you back on?").toList,
   (" Can you please repeat that slowly?").toList,
   (" What was your employee ID number?").toList,
   (" Hold on, let me check...").toList]

/-- `reply.endsWith("?") || reply.endsWith("...") || reply.endsWith("…")`. -/
def endsWithHook (l : List Char) : Bool :=
  (['?'].reverse.isPrefixOf l.reverse)
  || (['.', '.', '.'].reverse.isPrefixOf l.reverse)
  || (['…'].reverse.isPrefixOf l.reverse)

/-- `getEngagementPhase` of the persona service. -/
def getEngagementPhase (turnCount : Nat) : String :=
  if turnCount ≤ 2 then "STALLING"
  else if turnCount ≤ 4 then "EXTRACTING"
  else if turnCount ≤ 6 then "FAKE_COOPERATING"
  else "CONFUSION_LOOP"

/-- The fallback table of `getFallbackReply`:
`fallbacks[scamType] || fallbacks["unknown"]`, then
`scamFallbacks[phase] || scamFallbacks["STALLING"]`. -/
def fallbackFor (scamType phase : String) : String :=
  if scamType = "bank_fraud" then
    if phase = "STALLING" then
      "Oh god... my account? Which bank are you calling from exactly, SBI or HDFC? My signal is very poor."
    else if phase = "EXTRACTING" then
      "Okay but before I share anything, can you give me your employee ID and a callback number? My son told me to always verify."
    else if phase = "FAKE_COOPERATING" then
      "Haan, let me check my passbook... I think account number is 3847... wait, that might be old one. Hold on."
    else if phase = "CONFUSION_LOOP" then
      "Sorry, I pressed something and the OTP screen disappeared. Can you send it again? What was the UPI you said?"
    else
      "Oh god... my account? Which bank are you calling from exactly, SBI or HDFC? My signal is very poor."
  else if scamType = "upi_fraud" then
    if phase = "STALLING" then
      "Cashback? Really? From which company is this? I don't remember registering for anything."
    else if phase = "EXTRACTING" then
      "Okay, but which UPI ID should I send to? Give me your official UPI ID first so I can save it."
    else if phase = "FAKE_COOPERATING" then
      "My UPI is... ramesh.kumar... wait, I have two UPI apps. Which one you need, PhonePe or Google Pay?"
    else if phase = "CONFUSION_LOOP" then
      "I entered the amount but it's showing error. What was the UPI ID again? I think I typed it wrong."
    else
      "Cashback? Really? From which company is this? I don't remember registering for anything."
  else if scamType = "phishing" then
    if phase = "STALLING" then
      "A link? My son said never click unknown links. Is this from official website? What is the full address?"
    else if phase = "EXTRACTING" then
      "Can you send me the link on WhatsApp? What is your WhatsApp number? I want to save it."
    else if phase = "FAKE_COOPERATING" then
      "I opened the link but it's loading very slow. My internet is weak. What should I fill first?"
    else if phase = "CONFUSION_LOOP" then
      "The page asked for OTP but then it closed itself. Can you send the link again?"
    else
      "A link? My son said never click unknown links. Is this from official website? What is the full address?"
  else
    if phase = "STALLING" then
      "Sorry, I didn't catch that properly. Can you repeat slowly? Who are you calling from?"
    else if phase = "EXTRACTING" then
      "Okay, but first tell me your name and employee number. And which number is this officially?"
    else if phase = "FAKE_COOPERATING" then
      "Haan haan, I am checking... give me one minute only. What was the reference number you said?"
    else if phase = "CONFUSION_LOOP" then
      "Sorry my phone hung up for a second. You were saying something about... which account exactly?"
    else
      "Sorry, I didn't catch that properly. Can you repeat slowly? Who are you calling from?"

/-- `getFallbackReply` of the persona service. -/
def getFallbackReply (scamType : String) (turnCount : Nat) : String :=
  fallbackFor scamType (getEngagementPhase turnCount)

/-- The sixteen strings of the fallback table. -/
def fallbackReplies : List String :=
  ["Oh god... my account? Which bank are you calling from exactly, SBI or HDFC? My signal is very poor.",
   "Okay but before I share anything, can you give me your employee ID and a callback number? My son told me to always verify.",
   "Haan, let me check my passbook... I think account number is 3847... wait, that might be old one. Hold on.",
   "Sorry, I pressed something and the OTP screen disappeared. Can you send it again? What was the UPI you said?",
   "Cashback? Really? From which company is this? I don't remember registering for anything.",
   "Okay, but which UPI ID should I send to? Give me your official UPI ID first so I can save it.",
   "My UPI is... ramesh.kumar... wait, I have two UPI apps. Which one you need, PhonePe or Google Pay?",
   "I entered the amount but it's showing error. What was the UPI ID again? I think I typed it wrong.",
   "A link? My son said never click unknown links. Is this from official website? What is the full address?",
   "Can you send me the link on WhatsApp? What is your WhatsApp number? I want to save it.",
   "I opened the link but it's loading very slow. My internet is weak. What should I fill first?",
   "The page asked for OTP but then it closed itself. Can you send the link again?",
   "Sorry, I didn't catch that properly. Can you repeat slowly? Who are you calling from?",
   "Okay, but first tell me your name and employee number. And which number is this officially?",
   "Haan haan, I am checking... give me one minute only. What was the reference number you said?",
   "Sorry my phone hung up for a second. You were saying something about... which account exactly?"]

/-- `generatePersonaReply` reply production: `none` is the catch path
(generation failed), `some raw` the raw generator output put through the
post-processing of the persona service (cleanup, minimum length with
fallback, truncation at 300, hook suffix). -/
def generatePersonaReply (rawResponse : Option (List Char)) (scamType : String)
    (turnCount : Nat) : List Char :=
  match rawResponse with
  | none => (getFallbackReply scamType turnCount).toList
  | some raw =>
      let reply := cleanRawReply raw
      if reply.length < 10 then (getFallbackReply scamType turnCount).toList
      else
        let r5 := if 300 < reply.length then truncateAtSentence reply else reply
        if endsWithHook r5 then r5
        else r5 ++ hooks.getD (turnCount % hooks.length) []

/-- The parsed JSON of the classifier's model response: each field may be
missing or of the wrong type (`none`). -/
structure RawClassification where
  isScam : Option Bool
  scamType : Option String
  confidence : Option Rat
  signals : Option (List String)

/-- `detectScam` result construction (`src/services/detectionService.js`
lines 60-77): on a parsed response, coerce each field
(`result.isScam === true`, `result.scamType || "unknown"`,
`result.confidence || 0.5`, `result.signals || []`); when the call or
parse fails, the catch block returns the assume-scam fallback. -/
def detectScam (parsed : Option RawClassification) : Detection :=
  match parsed with
  | some r =>
      { isScam := r.isScam == some true
        scamType :=
          match r.scamType with
          | some t => if t = "" then "unknown" else t
          | none => "unknown"
        confidence :=
          match r.confidence with
          | some c => if c = 0 then (1 : Rat) / 2 else c
          | none => (1 : Rat) / 2
        signals := r.signals.getD [] }
  | none =>
      { isScam := true
        scamType := "unknown"
        confidence := (1 : Rat) / 2
        signals := ["detection_fallback"] }

/-- A character stripped by `phone.replace(/[\s\-().]/g, "")`. -/
def phoneStripChar (c : Char) : Bool :=
  jsWhitespaceChar c || c = '-' || c = '(' || c = ')' || c = '.'

/-- The regex test `/^[6-9]/` on the stripped digits. -/
def startsWithSixToNine (l : List Char) : Bool :=
  match l with
  | c :: _ => decide ('6' ≤ c) && decide (c ≤ '9')
  | [] => false

/-- `normalizePhone` (`src/services/extractionService.js` lines 38-44). -/
def normalizePhone (phone : String) : String :=
  let digits := phone.toList.filter (fun c => !phoneStripChar c)
  if ['+', '9', '1'].isPrefixOf digits ∧ digits.length = 13 then
    String.mk digits
  else if ['9', '1'].isPrefixOf digits ∧ digits.length = 12 then
    String.mk ('+' :: digits)
  else if digits.length = 10 ∧ startsWithSixToNine digits then
    String.mk ('+' :: '9' :: '1' :: digits)
  else String.mk digits

/-- A JSON value as the extractor may return inside a candidate array. -/
inductive JVal where
  | str (s : String)
  | num (n : Int)
  | boolVal (b : Bool)
  | null
deriving DecidableEq

/-- The `cleanValues` filter of `extractIntelligence`
(`src/services/extractionService.js` lines 109-110):
`.filter(v => v && typeof v === "string" && v.trim().length > 0)`. -/
def cleanValues (vs : List JVal) : List String :=
  vs.filterMap fun v =>
    match v with
    | .str s => if s ≠ "" ∧ jsTrim s.toList ≠ [] then some s else none
    | _ => none

/-- The API-key middleware condition (`src/routes/honeypot.js`
lines 21-30): `!expectedKey || providedKey === expectedKey`, where a
missing environment variable or header is `none` and an empty string is
falsy. -/
def apiKeyAllows (expectedKey providedKey : Option String) : Bool :=
  match expectedKey with
  | none => true
  | some k => k == "" || providedKey == some k

/-- A request hitting the honeypot route: the middleware either passes it
to the handler (status 200, the turn's background work runs) or rejects
it with 401 leaving the session untouched. -/
def handleRequest (expectedKey providedKey : Option String) (now : Nat)
    (s : Session) (d : Detection) (e : Extracted) : Nat × Session :=
  if apiKeyAllows expectedKey providedKey then
    (200, (backgroundWork now s d e).1)
  else (401, s)

/-- A scam-classified detection result. -/
def exScamDetection : Detection :=
  ⟨true, "bank_fraud", (9 : Rat) / 10, ["OTP"]⟩

/-- A non-scam detection result. -/
def exNonScamDetection : Detection :=
  ⟨false, "unknown", (1 : Rat) / 2, []⟩

/-- An extraction result with nothing found. -/
def exEmptyExtracted : Extracted :=
  ⟨[], [], [], [], [], [], [], []⟩

/-- A session after seven processed turns with the scam confirmed and the
report still unsent. -/
def exSession7 : Session :=
  { freshSession "session-7" 0 with totalMessages := 7, scamConfirmed := true }

/-- A session with the scam confirmed. -/
def exConfirmedSession : Session :=
  { freshSession "session-c" 0 with totalMessages := 3, scamConfirmed := true }

/-- Background state after seven processed turns, before the eighth and
ninth turns' background blocks run. -/
def exBgInit : BgState :=
  ⟨{ freshSession "session-i" 0 with totalMessages := 7, scamConfirmed := true }, [], 0⟩

/-- A valid interleaving of the background blocks of two turns: each
turn's synchronous stretch runs, then both awaited dispatches settle and
their flag writes run. -/
def exSchedule : List BgStep :=
  [.block 1 0 exScamDetection exEmptyExtracted,
   .block 2 0 exScamDetection exEmptyExtracted,
   .setFlag 1 0,
   .setFlag 2 0]

/-- A raw generator output of 301 characters whose only period sits at
position 299. -/
def exLongRaw : List Char := List.replicate 299 'a' ++ ['.', 'x']

/-- Ten scam turns. -/
def exTurns10 : List (Detection × Extracted) :=
  List.replicate 10 (exScamDetection, exEmptyExtracted)

/-- Candidate values containing a whitespace-only string, a non-string,
and a raw phone number. -/
def exCands : List JVal :=
  [JVal.str " ", JVal.num 5, JVal.str "9876543210"]

theorem mergeField_cons (cur : List String) (v : String) (vals : List String) :
    mergeField cur (v :: vals) = mergeField (mergeStep cur v) vals := rfl

theorem mem_mergeStep_mono {cur : List String} {w : String} (v : String)
    (h : w ∈ cur) : w ∈ mergeStep cur v := by
  unfold mergeStep
  split
  · exact List.mem_append_left _ h
  · exact h

theorem mem_mergeStep_self {cur : List String} {v : String} (hv : v ≠ "") :
    v ∈ mergeStep cur v := by
  by_cases hc : v ∈ cur
  · exact mem_mergeStep_mono v hc
  · simp [mergeStep, hv, hc]

theorem mem_mergeField_of_mem_cur {cur : List String} {w : String}
    (vals : List String) (h : w ∈ cur) : w ∈ mergeField cur vals := by
  induction vals generalizing cur with
  | nil => exact h
  | cons v vs ih =>
    rw [mergeField_cons]
    exact ih (mem_mergeStep_mono v h)

theorem mem_mergeField_of_mem_vals {cur vals : List String} {v : String}
    (hmem : v ∈ vals) (hne : v ≠ "") : v ∈ mergeField cur vals := by
  induction vals generalizing cur with
  | nil => cases hmem
  | cons w vs ih =>
    rw [mergeField_cons]
    rcases List.mem_cons.mp hmem with h | h
    · subst h
      exact mem_mergeField_of_mem_cur vs (mem_mergeStep_self hne)
    · exact ih h

theorem mergeField_eq_of_subset {cur vals : List String} :
    (∀ v ∈ vals, v ≠ "" → v ∈ cur) → mergeField cur vals = cur := by
  induction vals with
  | nil => intro _; rfl
  | cons w vs ih =>
    intro h
    rw [mergeField_cons]
    have hstep : mergeStep cur w = cur := by
      unfold mergeStep
      rw [if_neg]
      rintro ⟨hne, hnot⟩
      exact hnot (h w (List.mem_cons_self w vs) hne)
    rw [hstep]
    exact ih fun v hv hne => h v (List.mem_cons_of_mem w hv) hne

theorem mergeField_idem (cur vals : List String) :
    mergeField (mergeField cur vals) vals = mergeField cur vals :=
  mergeField_eq_of_subset fun _ hv hne => mem_mergeField_of_mem_vals hv hne

theorem mem_mergeField {cur vals : List String} {v : String}
    (h : v ∈ mergeField cur vals) : v ∈ cur ∨ (v ≠ "" ∧ v ∈ vals) := by
  induction vals generalizing cur with
  | nil => exact Or.inl h
  | cons w vs ih =>
    rw [mergeField_cons] at h
    rcases ih h with hc | hv
    · unfold mergeStep at hc
      by_cases hcond : w ≠ "" ∧ w ∉ cur
      · rw [if_pos hcond] at hc
        rcases List.mem_append.mp hc with h1 | h1
        · exact Or.inl h1
        · have hvw : v = w := List.mem_singleton.mp h1
          subst hvw
          exact Or.inr ⟨hcond.1, List.mem_cons_self _ _⟩
      · rw [if_neg hcond] at hc
        exact Or.inl hc
    · exact Or.inr ⟨hv.1, List.mem_cons_of_mem _ hv.2⟩

theorem nodup_mergeField {cur : List String} (vals : List String)
    (h : cur.Nodup) : (mergeField cur vals).Nodup := by
  induction vals generalizing cur with
  | nil => exact h
  | cons w vs ih =>
    rw [mergeField_cons]
    refine ih ?_
    unfold mergeStep
    split
    · next hcond =>
      refine List.Nodup.append h (List.nodup_singleton w) ?_
      intro a ha hb
      rw [List.mem_singleton] at hb
      subst hb
      exact hcond.2 ha
    · exact h

theorem updateSession_totalMessages (now : Nat) (s : Session) (u : Updates) :
    (updateSession now s u).totalMessages = s.totalMessages + 1 := by
  simp [updateSession]

theorem updateSession_callbackSent (now : Nat) (s : Session) (u : Updates) :
    (updateSession now s u).callbackSent = u.callbackSent.getD s.callbackSent := by
  simp [updateSession]

theorem updateSession_route_callbackSent (now : Nat) (s : Session)
    (d : Detection) (e : Extracted) :
    (updateSession now s (routeUpdates d e)).callbackSent = s.callbackSent := by
  rw [updateSession_callbackSent]
  rfl

theorem updateSession_scamConfirmed_true (now : Nat) (s : Session) (u : Updates)
    (h : s.scamConfirmed = true)
    (hu : u.scamConfirmed = none ∨ u.scamConfirmed = some true) :
    (updateSession now s u).scamConfirmed = true := by
  simp only [updateSession]
  rcases hu with hu | hu <;> simp [hu, h]

theorem routeUpdates_scamConfirmed (d : Detection) (e : Extracted) :
    (routeUpdates d e).scamConfirmed = none
    ∨ (routeUpdates d e).scamConfirmed = some true := by
  unfold routeUpdates
  by_cases hd : d.isScam <;> simp [hd]

theorem backgroundWork_eq (now : Nat) (s : Session) (d : Detection) (e : Extracted) :
    backgroundWork now s d e =
      if shouldTriggerCallback (updateSession now s (routeUpdates d e))
          && !(updateSession now s (routeUpdates d e)).callbackSent then
        (updateSession now (updateSession now s (routeUpdates d e)) callbackFlagUpdate, true)
      else (updateSession now s (routeUpdates d e), false) := rfl

theorem backgroundWork_scamConfirmed (now : Nat) (s : Session) (d : Detection)
    (e : Extracted) (h : s.scamConfirmed = true) :
    (backgroundWork now s d e).1.scamConfirmed = true := by
  rw [backgroundWork_eq]
  have h1 : (updateSession now s (routeUpdates d e)).scamConfirmed = true :=
    updateSession_scamConfirmed_true now s _ h (routeUpdates_scamConfirmed d e)
  split
  · exact updateSession_scamConfirmed_true now _ _ h1 (Or.inl rfl)
  · exact h1

/-- Claim C3: once `scamConfirmed` is true for a session, no sequence of
further processed turns (including turns classified as non-scam) sets it
back to false: the route only ever passes `scamConfirmed: true` (when
`detection.isScam`) or omits the key, and `updateSession` keeps the old
value for an absent key. -/
theorem c3_scam_confirmed_monotonic (turns : List (Nat × Detection × Extracted))
    (s : Session) (h : s.scamConfirmed = true) :
    (runTurnsSeq turns s).1.scamConfirmed = true := by
  induction turns generalizing s with
  | nil => exact h
  | cons t ts ih =>
    obtain ⟨now, d, e⟩ := t
    exact ih _ (backgroundWork_scamConfirmed now s d e h)

/-- Witness for C3: a session with the scam confirmed keeps the flag after
a turn whose classification is non-scam. -/
theorem c3_witness :
    (runTurnsSeq [(0, exNonScamDetection, exEmptyExtracted)] exConfirmedSession).1.scamConfirmed
      = true :=
  c3_scam_confirmed_monotonic _ _ rfl

/-- Claim C4: the intelligence merge is idempotent: applying the same
update object twice leaves every intelligence list equal to the list
after applying it once. -/
theorem c4_merge_idempotent (now1 now2 : Nat) (s : Session) (u : Updates) :
    (updateSession now2 (updateSession now1 s u) u).upiIds
        = (updateSession now1 s u).upiIds
    ∧ (updateSession now2 (updateSession now1 s u) u).phoneNumbers
        = (updateSession now1 s u).phoneNumbers
    ∧ (updateSession now2 (updateSession now1 s u) u).phishingLinks
        = (updateSession now1 s u).phishingLinks
    ∧ (updateSession now2 (updateSession now1 s u) u).bankAccounts
        = (updateSession now1 s u).bankAccounts
    ∧ (updateSession now2 (updateSession now1 s u) u).emailAddresses
        = (updateSession now1 s u).emailAddresses
    ∧ (updateSession now2 (updateSession now1 s u) u).ifscCodes
        = (updateSession now1 s u).ifscCodes
    ∧ (updateSession now2 (updateSession now1 s u) u).orgNames
        = (updateSession now1 s u).orgNames
    ∧ (updateSession now2 (updateSession now1 s u) u).suspiciousKeywords
        = (updateSession now1 s u).suspiciousKeywords
    ∧ (updateSession now2 (updateSession now1 s u) u).tacticsObserved
        = (updateSession now1 s u).tacticsObserved := by
  refine ⟨?_, ?_, ?_, ?_, ?_, ?_, ?_, ?_, ?_⟩ <;>
    simp [updateSession, mergeOpt, mergeField_idem]

/-- Counterexample for C5: on a turn that dispatches the report,
`totalMessages` grows by 2, because the `callbackSent: true` flag write
goes through `updateSession`, which increments the counter again. -/
theorem c5_counterexample :
    (backgroundWork 0 exSession7 exScamDetection exEmptyExtracted).2 = true
    ∧ (backgroundWork 0 exSession7 exScamDetection exEmptyExtracted).1.totalMessages
        = exSession7.totalMessages + 2 := by
  constructor <;> rfl

/-- Claim C5 (amended): each processed inbound message increments
`totalMessages` through the intelligence `updateSession` call and the
counter is never decremented; a turn that also dispatches the report
increments it a second time through the `callbackSent` flag write, for a
total of 2. -/
theorem c5_amended (now : Nat) (s : Session) (d : Detection) (e : Extracted) :
    (backgroundWork now s d e).1.totalMessages
        = s.totalMessages + (if (backgroundWork now s d e).2 then 2 else 1)
    ∧ s.totalMessages < (backgroundWork now s d e).1.totalMessages := by
  rw [backgroundWork_eq]
  split
  · simp [updateSession_totalMessages]
    omega
  · simp [updateSession_totalMessages]

/-- Counterexample for C1: a valid interleaving of the background blocks
of two turns (each synchronous stretch runs, then both awaited dispatches
settle) invokes the dispatch twice, because the `callbackSent` flag is
only written after the awaited `sendFinalCallback` completes. -/
theorem c1_counterexample : ¬ ((runBg exSchedule exBgInit).dispatchCount ≤ 1) := by
  decide

theorem backgroundWork_fired_flag (now : Nat) (s : Session) (d : Detection)
    (e : Extracted) (h : (backgroundWork now s d e).2 = true) :
    (backgroundWork now s d e).1.callbackSent = true := by
  rw [backgroundWork_eq] at h ⊢
  split at h
  · next hc =>
    rw [if_pos hc]
    rw [updateSession_callbackSent]
    rfl
  · simp at h

theorem backgroundWork_sent (now : Nat) (s : Session) (d : Detection)
    (e : Extracted) (h : s.callbackSent = true) :
    (backgroundWork now s d e).2 = false
    ∧ (backgroundWork now s d e).1.callbackSent = true := by
  have h1 : (updateSession now s (routeUpdates d e)).callbackSent = true := by
    rw [updateSession_route_callbackSent]
    exact h
  rw [backgroundWork_eq]
  rw [if_neg]
  · exact ⟨rfl, h1⟩
  · simp [h1]

theorem backgroundWork_not_fired (now : Nat) (s : Session) (d : Detection)
    (e : Extracted) (h : (backgroundWork now s d e).2 = false) :
    (backgroundWork now s d e).1.callbackSent = s.callbackSent := by
  rw [backgroundWork_eq] at h ⊢
  split at h
  · simp at h
  · next hc =>
    rw [if_neg hc]
    exact updateSession_route_callbackSent now s d e

theorem runTurnsSeq_cons (now : Nat) (d : Detection) (e : Extracted)
    (ts : List (Nat × Detection × Extracted)) (s : Session) :
    (runTurnsSeq ((now, d, e) :: ts) s).2
      = (if (backgroundWork now s d e).2 then 1 else 0)
        + (runTurnsSeq ts (backgroundWork now s d e).1).2 := rfl

/-- Claim C1 (amended): when each turn's background block runs to
completion before the next turn's block starts, `sendFinalCallback` is
dispatched at most once per session (and never once `callbackSent`
already holds); under arbitrary interleavings the check-then-set is not
atomic and can double-fire, as the counterexample shows. -/
theorem c1_amended (turns : List (Nat × Detection × Extracted)) (s : Session) :
    (runTurnsSeq turns s).2 ≤ if s.callbackSent then 0 else 1 := by
  induction turns generalizing s with
  | nil => simp [runTurnsSeq]
  | cons t ts ih =>
    obtain ⟨now, d, e⟩ := t
    rw [runTurnsSeq_cons]
    by_cases hs : s.callbackSent
    · have hb := backgroundWork_sent now s d e hs
      have hrec := ih (backgroundWork now s d e).1
      rw [hb.2] at hrec
      simp only [hb.1, if_neg, hs]
      simpa using hrec
    · by_cases hf : (backgroundWork now s d e).2
      · have hflag := backgroundWork_fired_flag now s d e hf
        have hrec := ih (backgroundWork now s d e).1
        rw [hflag] at hrec
        simp only [hf, if_true] at *
        simp only [Bool.not_eq_true] at hs
        simp [hs] at hrec ⊢
        omega
      · have hb : (backgroundWork now s d e).2 = false := by simpa using hf
        have hflag := backgroundWork_not_fired now s d e hb
        have hrec := ih (backgroundWork now s d e).1
        rw [hflag] at hrec
        simp only [Bool.not_eq_true] at hs
        simp [hs, hb] at hrec ⊢
        omega

theorem currentTurn_standard (k0 : Nat) : currentTurn (2 * k0) (k0 + 1) = k0 + 1 := by
  unfold currentTurn
  split <;> omega

theorem shouldTriggerCallback_lt8 (s : Session) (h : s.totalMessages < 8) :
    shouldTriggerCallback s = false := by
  unfold shouldTriggerCallback
  split
  · rfl
  · split
    · rfl
    · simp
      omega

theorem shouldFire_early (s : Session) (k0 : Nat) (htm : s.totalMessages = k0 + 1)
    (h8 : k0 + 1 < 8) : shouldFire s (2 * k0) = false := by
  unfold shouldFire
  rw [htm, currentTurn_standard, shouldTriggerCallback_lt8 s (by omega)]
  have d8 : decide (8 ≤ k0 + 1) = false := by simp; omega
  have d10 : decide (10 ≤ k0 + 1) = false := by simp; omega
  rw [d8, d10]
  simp

theorem shouldFire_forced (s : Session) (k0 : Nat) (htm : s.totalMessages = k0 + 1)
    (hcb : s.callbackSent = false) (h9 : 9 ≤ k0) : shouldFire s (2 * k0) = true := by
  unfold shouldFire
  rw [htm, currentTurn_standard]
  have d10 : decide (10 ≤ k0 + 1) = true := by simp; omega
  rw [d10, hcb]
  simp

theorem processTurnStep5_eq (now : Nat) (s : Session) (d : Detection)
    (e : Extracted) (historyLen : Nat) :
    processTurnStep5 now s d e historyLen =
      if shouldFire (updateSession now s (routeUpdates d e)) historyLen then
        (updateSession now (updateSession now s (routeUpdates d e)) callbackFlagUpdate, true)
      else (updateSession now s (routeUpdates d e), false) := rfl

theorem processTurnStep5_early (s : Session) (d : Detection) (e : Extracted)
    (k0 : Nat) (htm : s.totalMessages = k0) (h8 : k0 + 1 < 8) :
    (processTurnStep5 0 s d e (2 * k0)).2 = false := by
  rw [processTurnStep5_eq]
  rw [shouldFire_early _ k0 (by rw [updateSession_totalMessages, htm]) h8]
  rfl

theorem processTurnStep5_forced (s : Session) (d : Detection) (e : Extracted)
    (k0 : Nat) (htm : s.totalMessages = k0) (hcb : s.callbackSent = false)
    (h9 : 9 ≤ k0) : (processTurnStep5 0 s d e (2 * k0)).2 = true := by
  rw [processTurnStep5_eq]
  rw [shouldFire_forced _ k0 (by rw [updateSession_totalMessages, htm])
    (by rw [updateSession_route_callbackSent]; exact hcb) h9]
  rfl

theorem processTurnStep5_not_fired (now : Nat) (s : Session) (d : Detection)
    (e : Extracted) (historyLen : Nat)
    (h : (processTurnStep5 now s d e historyLen).2 = false) :
    (processTurnStep5 now s d e historyLen).1.totalMessages = s.totalMessages + 1
    ∧ (processTurnStep5 now s d e historyLen).1.callbackSent = s.callbackSent := by
  rw [processTurnStep5_eq] at h ⊢
  split at h
  · simp at h
  · next hc =>
    rw [if_neg hc]
    exact ⟨updateSession_totalMessages now s _, updateSession_route_callbackSent now s d e⟩

theorem runConversation_cons (d : Detection) (e : Extracted)
    (ts : List (Detection × Extracted)) (k0 : Nat) (s : Session) :
    runConversation ((d, e) :: ts) k0 s =
      ((runConversation ts (k0 + 1) (processTurnStep5 0 s d e (2 * k0)).1).1,
       (processTurnStep5 0 s d e (2 * k0)).2
         :: (runConversation ts (k0 + 1) (processTurnStep5 0 s d e (2 * k0)).1).2) := rfl

theorem runConversation_no_early_fire (ts : List (Detection × Extracted)) :
    ∀ (k0 : Nat) (s : Session), s.totalMessages = k0 →
      ∀ i, k0 + i + 1 < 8 → (runConversation ts k0 s).2.getD i false = false := by
  induction ts with
  | nil => intro k0 s _ i _; rfl
  | cons t ts ih =>
    intro k0 s htm i h8
    obtain ⟨d, e⟩ := t
    rw [runConversation_cons]
    have hfire : (processTurnStep5 0 s d e (2 * k0)).2 = false :=
      processTurnStep5_early s d e k0 htm (by omega)
    cases i with
    | zero => simpa using hfire
    | succ j =>
      have hinv := processTurnStep5_not_fired 0 s d e (2 * k0) hfire
      have hrec := ih (k0 + 1) _ (by rw [hinv.1, htm]) j (by omega)
      simpa using hrec

theorem runConversation_fire_by_ceiling (ts : List (Detection × Extracted)) :
    ∀ (k0 : Nat) (s : Session), s.totalMessages = k0 → s.callbackSent = false →
      k0 ≤ 9 → 10 ≤ k0 + ts.length →
      ((runConversation ts k0 s).2.take (10 - k0)).any (fun b => b) = true := by
  induction ts with
  | nil =>
    intro k0 s _ _ h9 h10
    simp at h10
    omega
  | cons t ts ih =>
    intro k0 s htm hcb h9 h10
    obtain ⟨d, e⟩ := t
    rw [runConversation_cons]
    have htake : 10 - k0 = (9 - k0) + 1 := by omega
    rw [htake, List.take_succ_cons, List.any_cons]
    by_cases hf : (processTurnStep5 0 s d e (2 * k0)).2
    · simp [hf]
    · have hb : (processTurnStep5 0 s d e (2 * k0)).2 = false := by simpa using hf
      have hk9 : k0 < 9 := by
        by_contra hk
        have hforced := processTurnStep5_forced s d e k0 htm hcb (by omega)
        rw [hforced] at hb
        cases hb
      have hinv := processTurnStep5_not_fired 0 s d e (2 * k0) hb
      have hrec := ih (k0 + 1) _ (by rw [hinv.1, htm]) (by rw [hinv.2, hcb])
        (by omega) (by simp at h10 ⊢; omega)
      have hsub : 10 - (k0 + 1) = 9 - k0 := by omega
      rw [hsub] at hrec
      rw [hb, hrec]
      simp

/-- Claim C2: under the default thresholds of the route's Step 5, no
report dispatch fires on any turn before the 8th processed turn (in
particular for a session confirmed as scam at turn 2), and for every
session run from fresh, a dispatch fires among the first 10 processed
turns regardless of the classification outcomes. -/
theorem c2_termination_window (turns : List (Detection × Extracted)) :
    (∀ i, i < 7 → (runConversation turns 0 (freshSession "s" 0)).2.getD i false = false)
    ∧ (10 ≤ turns.length →
        ((runConversation turns 0 (freshSession "s" 0)).2.take 10).any (fun b => b) = true) := by
  constructor
  · intro i hi
    exact runConversation_no_early_fire turns 0 (freshSession "s" 0) rfl i (by omega)
  · intro hlen
    have h := runConversation_fire_by_ceiling turns 0 (freshSession "s" 0) rfl rfl
      (by omega) (by omega)
    simpa using h

/-- Witness for C2: ten scam turns from a fresh session do not fire on
turn 1 and do fire within the first ten turns. -/
theorem c2_witness :
    (runConversation exTurns10 0 (freshSession "s" 0)).2.getD 0 false = false
    ∧ ((runConversation exTurns10 0 (freshSession "s" 0)).2.take 10).any (fun b => b) = true :=
  ⟨(c2_termination_window exTurns10).1 0 (by decide),
   (c2_termination_window exTurns10).2 (by decide)⟩

theorem isPrefixOf_append (p x y : List Char) (h : p.isPrefixOf x = true) :
    p.isPrefixOf (x ++ y) = true := by
  rw [List.isPrefixOf_iff_prefix] at h ⊢
  exact h.trans (List.prefix_append x y)

theorem endsWithHook_append (l h : List Char) (hh : endsWithHook h = true) :
    endsWithHook (l ++ h) = true := by
  unfold endsWithHook at hh ⊢
  rw [List.reverse_append]
  simp only [Bool.or_eq_true] at hh ⊢
  rcases hh with (h1 | h2) | h3
  · exact Or.inl (Or.inl (isPrefixOf_append _ _ _ h1))
  · exact Or.inl (Or.inr (isPrefixOf_append _ _ _ h2))
  · exact Or.inr (isPrefixOf_append _ _ _ h3)

theorem hook_facts (i : Nat) (h : i < 5) :
    hooks.getD i [] ≠ []
    ∧ (hooks.getD i []).length ≤ 37
    ∧ endsWithHook (hooks.getD i []) = true := by
  interval_cases i <;> refine ⟨by decide, by decide, by decide⟩

theorem endsWithHook_nil : endsWithHook [] = false := by decide

theorem truncateAtSentence_eq (l : List Char) :
    truncateAtSentence l =
      if ((l.take 300).reverse.dropWhile (fun c => c != '.')).reverse.isEmpty then ['.']
      else ((l.take 300).reverse.dropWhile (fun c => c != '.')).reverse := rfl

theorem truncateAtSentence_length (l : List Char) :
    (truncateAtSentence l).length ≤ 300 := by
  rw [truncateAtSentence_eq]
  split
  · decide
  · have h1 : ((l.take 300).reverse.dropWhile (fun c => c != '.')).length
        ≤ (l.take 300).reverse.length :=
      (List.dropWhile_sublist _).length_le
    have h2 : (l.take 300).length ≤ 300 := by
      rw [List.length_take]
      omega
    simp only [List.length_reverse] at h1 ⊢
    omega

theorem fallbackFor_mem (scamType phase : String) :
    fallbackFor scamType phase ∈ fallbackReplies := by
  unfold fallbackFor
  split_ifs <;> simp [fallbackReplies]

theorem getFallbackReply_mem (scamType : String) (turnCount : Nat) :
    getFallbackReply scamType turnCount ∈ fallbackReplies :=
  fallbackFor_mem scamType (getEngagementPhase turnCount)

set_option maxHeartbeats 1000000 in
theorem fallbackReplies_props :
    ∀ f ∈ fallbackReplies, f.toList ≠ [] ∧ f.toList.length ≤ 337 := by
  intro f hf
  fin_cases hf <;> exact ⟨by decide, by decide⟩

theorem getFallbackReply_props (scamType : String) (turnCount : Nat) :
    (getFallbackReply scamType turnCount).toList ≠ []
    ∧ (getFallbackReply scamType turnCount).toList.length ≤ 337 :=
  fallbackReplies_props _ (getFallbackReply_mem scamType turnCount)

theorem finalize_props (r5 : List Char) (turnCount : Nat) (h300 : r5.length ≤ 300) :
    (if endsWithHook r5 then r5 else r5 ++ hooks.getD (turnCount % hooks.length) []) ≠ []
    ∧ (if endsWithHook r5 then r5
       else r5 ++ hooks.getD (turnCount % hooks.length) []).length ≤ 337
    ∧ endsWithHook (if endsWithHook r5 then r5
       else r5 ++ hooks.getD (turnCount % hooks.length) []) = true := by
  have hmod : turnCount % hooks.length < 5 := Nat.mod_lt _ (by decide)
  have hf := hook_facts (turnCount % hooks.length) hmod
  by_cases he : endsWithHook r5 = true
  · rw [if_pos he]
    refine ⟨?_, by omega, he⟩
    intro hnil
    rw [hnil, endsWithHook_nil] at he
    cases he
  · rw [if_neg he]
    refine ⟨?_, ?_, ?_⟩
    · intro hnil
      rcases List.append_eq_nil.mp hnil with ⟨_, hr⟩
      exact hf.1 hr
    · rw [List.length_append]
      have := hf.2.1
      omega
    · exact endsWithHook_append _ _ hf.2.2

theorem generatePersonaReply_main (raw : List Char) (scamType : String)
    (turnCount : Nat) (hlen : ¬ (cleanRawReply raw).length < 10) :
    generatePersonaReply (some raw) scamType turnCount =
      (if endsWithHook (if 300 < (cleanRawReply raw).length then
            truncateAtSentence (cleanRawReply raw) else cleanRawReply raw) then
         (if 300 < (cleanRawReply raw).length then
            truncateAtSentence (cleanRawReply raw) else cleanRawReply raw)
       else (if 300 < (cleanRawReply raw).length then
            truncateAtSentence (cleanRawReply raw) else cleanRawReply raw)
         ++ hooks.getD (turnCount % hooks.length) []) := by
  simp only [generatePersonaReply, hlen, if_false, ite_false]

set_option maxRecDepth 10000 in
set_option maxHeartbeats 4000000 in
/-- Counterexample for C6: the empty generator output takes the fallback
path and yields a reply ending in `'.'` (no hook); a 301-character output
whose only period sits at position 299 is truncated to 300 characters and
then gets a 28-character hook appended, ending at 328 characters. -/
theorem c6_counterexample :
    ¬ (endsWithHook (generatePersonaReply (some []) "bank_fraud" 0) = true)
    ∧ ¬ ((generatePersonaReply (some exLongRaw) "unknown" 0).length ≤ 300) := by
  constructor
  · decide
  · decide

/-- Claim C6 (amended): for every raw generator output and for the
failure path, the post-processed reply is non-empty and at most 337
characters (300 plus the longest hook), and it either ends in `'?'`,
`"..."` or `'…'` or is one of the sixteen fallback-table strings (the
fallback path returns its string without the hook check). -/
theorem c6_amended (rawResponse : Option (List Char)) (scamType : String)
    (turnCount : Nat) :
    generatePersonaReply rawResponse scamType turnCount ≠ []
    ∧ (generatePersonaReply rawResponse scamType turnCount).length ≤ 337
    ∧ (endsWithHook (generatePersonaReply rawResponse scamType turnCount) = true
        ∨ ∃ f ∈ fallbackReplies,
            generatePersonaReply rawResponse scamType turnCount = f.toList) := by
  match rawResponse with
  | none =>
      refine ⟨(getFallbackReply_props scamType turnCount).1,
        (getFallbackReply_props scamType turnCount).2,
        Or.inr ⟨_, getFallbackReply_mem scamType turnCount, rfl⟩⟩
  | some raw =>
      by_cases hlen : (cleanRawReply raw).length < 10
      · have hfb : generatePersonaReply (some raw) scamType turnCount
            = (getFallbackReply scamType turnCount).toList := by
          simp only [generatePersonaReply, hlen, if_true, ite_true]
        rw [hfb]
        exact ⟨(getFallbackReply_props scamType turnCount).1,
          (getFallbackReply_props scamType turnCount).2,
          Or.inr ⟨_, getFallbackReply_mem scamType turnCount, rfl⟩⟩
      · rw [generatePersonaReply_main raw scamType turnCount hlen]
        have h300 : (if 300 < (cleanRawReply raw).length then
            truncateAtSentence (cleanRawReply raw) else cleanRawReply raw).length ≤ 300 := by
          split
          · exact truncateAtSentence_length _
          · omega
        have hp := finalize_props _ turnCount h300
        exact ⟨hp.1, hp.2.1, Or.inl hp.2.2⟩

/-- Counterexample for C7: when the classification call fails, the catch
block does not coerce to the claimed safe defaults: it returns
`isScam = true` (and `signals = ["detection_fallback"]`), deliberately
assuming scam on failure. -/
theorem c7_counterexample :
    ¬ ((detectScam none).isScam = false ∧ (detectScam none).scamType = "unknown"
       ∧ (detectScam none).confidence = (1 : Rat) / 2
       ∧ (detectScam none).signals = []) := by
  intro h
  exact absurd h.1 (by decide)

/-- Claim C7 (amended): a response that parses but has missing or
mistyped fields coerces to `isScam = false`, `scamType = "unknown"`,
`confidence = 0.5`, `signals = []`; a failed or unparseable
classification call instead falls back to `isScam = true`,
`scamType = "unknown"`, `confidence = 0.5`,
`signals = ["detection_fallback"]`. -/
theorem c7_safe_defaults :
    (∀ r : RawClassification, r.isScam ≠ some true →
        (detectScam (some r)).isScam = false)
    ∧ detectScam (some ⟨none, none, none, none⟩)
        = ⟨false, "unknown", (1 : Rat) / 2, []⟩
    ∧ detectScam none = ⟨true, "unknown", (1 : Rat) / 2, ["detection_fallback"]⟩ := by
  refine ⟨?_, rfl, rfl⟩
  intro r hr
  simp only [detectScam]
  simpa using hr

/-- Witness for C7: a parsed response whose `isScam` field is the boolean
`false` coerces to `isScam = false`. -/
theorem c7_witness :
    (detectScam (some ⟨some false, none, none, none⟩)).isScam = false :=
  c7_safe_defaults.1 ⟨some false, none, none, none⟩ (by decide)

/-- Claim C8: the inputs `"9876543210"`, `"+919876543210"` and
`"91 9876543210"` all normalize to the same canonical stored string
`"+919876543210"`. -/
theorem c8_phone_normalization_equivalence :
    normalizePhone "9876543210" = "+919876543210"
    ∧ normalizePhone "+919876543210" = "+919876543210"
    ∧ normalizePhone "91 9876543210" = "+919876543210" := by
  refine ⟨?_, ?_, ?_⟩ <;> decide

/-- Claim C9: the merge adds a (normalized) value only when it is not
already present: membership in the merged list is exactly membership in
the old list or being a non-empty incoming value, and no duplicates are
introduced; the `cleanValues` filter silently discards every non-string,
empty, or whitespace-only candidate (and the functions are total, so no
error is raised). -/
theorem c9_merge_policy (cur : List String) (cands : List JVal)
    (norm : String → String) :
    (∀ v, v ∈ mergeField cur ((cleanValues cands).map norm) ↔
        (v ∈ cur ∨ (v ≠ "" ∧ v ∈ (cleanValues cands).map norm)))
    ∧ (∀ s, s ∈ cleanValues cands ↔
        (JVal.str s ∈ cands ∧ s ≠ "" ∧ jsTrim s.toList ≠ []))
    ∧ (cur.Nodup → (mergeField cur ((cleanValues cands).map norm)).Nodup) := by
  refine ⟨?_, ?_, nodup_mergeField _⟩
  · intro v
    constructor
    · exact mem_mergeField
    · rintro (h | ⟨hne, hmem⟩)
      · exact mem_mergeField_of_mem_cur _ h
      · exact mem_mergeField_of_mem_vals hmem hne
  · intro s
    unfold cleanValues
    rw [List.mem_filterMap]
    constructor
    · rintro ⟨v, hv, hmap⟩
      match v with
      | JVal.str t =>
        have hmap' : (if t ≠ "" ∧ jsTrim t.toList ≠ [] then some t else none)
            = some s := hmap
        by_cases hc : t ≠ "" ∧ jsTrim t.toList ≠ []
        · rw [if_pos hc] at hmap'
          cases hmap'
          exact ⟨hv, hc⟩
        · rw [if_neg hc] at hmap'
          cases hmap'
      | JVal.num n => cases hmap
      | JVal.boolVal b => cases hmap
      | JVal.null => cases hmap
    · rintro ⟨hv, hne, htrim⟩
      refine ⟨JVal.str s, hv, ?_⟩
      show (if s ≠ "" ∧ jsTrim s.toList ≠ [] then some s else none) = some s
      rw [if_pos ⟨hne, htrim⟩]

/-- Witness for C9: merging the normalized candidates of `exCands` into a
set already holding the canonical phone number adds nothing new and keeps
the set duplicate-free. -/
theorem c9_witness :
    (mergeField ["+919876543210"] ((cleanValues exCands).map normalizePhone)).Nodup
    ∧ ("+919876543210" ∈ (["+919876543210"] : List String)
        ∨ ("+919876543210" ≠ ""
           ∧ "+919876543210" ∈ (cleanValues exCands).map normalizePhone)) :=
  ⟨(c9_merge_policy ["+919876543210"] exCands normalizePhone).2.2 (by decide),
   ((c9_merge_policy ["+919876543210"] exCands normalizePhone).1 "+919876543210").mp
     (by decide)⟩

/-- Counterexample for C10: with `API_KEY` set to the empty string (a
falsy value), a request with a non-matching `x-api-key` header is
accepted (status 200), not rejected with 401 as the claim requires for
every set key. -/
theorem c10_counterexample :
    ¬ ((handleRequest (some "") (some "wrong-key") 0 (freshSession "s" 0)
        exScamDetection exEmptyExtracted).1 = 401) := by
  decide

/-- Claim C10 (amended): if `API_KEY` is unset the middleware accepts
every request and the turn is processed; if `API_KEY` is set to a
non-empty string, a request whose `x-api-key` header does not equal it
receives 401 and its turn is not processed (the session is unchanged).
An empty-string `API_KEY` is falsy and behaves like unset. -/
theorem c10_auth :
    (∀ (providedKey : Option String) (now : Nat) (s : Session) (d : Detection)
        (e : Extracted),
        handleRequest none providedKey now s d e
          = (200, (backgroundWork now s d e).1))
    ∧ (∀ (k : String) (providedKey : Option String) (now : Nat) (s : Session)
        (d : Detection) (e : Extracted), k ≠ "" → providedKey ≠ some k →
        handleRequest (some k) providedKey now s d e = (401, s)) := by
  constructor
  · intro p now s d e
    rfl
  · intro k p now s d e hk hp
    have hallow : apiKeyAllows (some k) p = false := by
      simp [apiKeyAllows]
      exact ⟨hk, hp⟩
    simp [handleRequest, hallow]

/-- Witness for C10: with no key configured an arbitrary header is
accepted and the turn runs; with key `"k1"` a request carrying `"k2"` is
rejected with 401 and the session is unchanged. -/
theorem c10_witness :
    handleRequest none (some "anything") 0 (freshSession "s" 0)
        exScamDetection exEmptyExtracted
      = (200, (backgroundWork 0 (freshSession "s" 0)
          exScamDetection exEmptyExtracted).1)
    ∧ handleRequest (some "k1") (some "k2") 0 (freshSession "s" 0)
        exScamDetection exEmptyExtracted
      = (401, freshSession "s" 0) :=
  ⟨c10_auth.1 (some "anything") 0 (freshSession "s" 0) exScamDetection exEmptyExtracted,
   c10_auth.2 "k1" (some "k2") 0 (freshSession "s" 0) exScamDetection exEmptyExtracted
     (by decide) (by decide)⟩

end Honeypot
